import Mathlib

/-!
Verification development for the kiwifruit server's epub ingestion pipeline
(src/server/app.py).  The definitions below are a shallow embedding of the
Python source: `_extract_epub_metadata`, `_parse_epub_chapters` (the background
Worker), and the coordinator endpoints `epub_upload`, `epub_detail` and
`epub_chapters`.  Machine-level concerns (threads, sqlite) are modelled by a
worker that accumulates pending writes in one open transaction and publishes
committed snapshots; a reader only ever observes a committed snapshot.
-/

namespace Kiwifruit

/-- Python string slicing s[:n] by code points. -/
def pytrunc (s : String) (n : Nat) : String := ⟨s.data.take n⟩

/-- The whitespace characters Python str.strip removes by default. -/
def isPySpace (c : Char) : Bool :=
  c == ' ' || c == '\t' || c == '\n' || c == '\r' ||
    c == '\x0b' || c == '\x0c'

/-- Python str.strip with no argument. -/
def pystrip (s : String) : String :=
  ⟨((s.data.dropWhile isPySpace).reverse.dropWhile isPySpace).reverse⟩

/-- Python str.lower, restricted to the ASCII letters that can occur in a
file extension. -/
def pylower (s : String) : String := ⟨s.data.map Char.toLower⟩

/-- Last index of a character in a list, as in Python str.rfind. -/
def lastIdxOf (c : Char) (cs : List Char) : Option Nat :=
  ((cs.enum.filter (fun p => p.2 == c)).map (fun p => p.1)).getLast?

/-- Whether some character in cs at an index in [a, b) differs from a dot
(the scan CPython's genericpath._splitext performs). -/
def hasNonDotBetween (cs : List Char) (a b : Nat) : Bool :=
  ((cs.drop a).take (b - a)).any (fun ch => ch != '.')

/-- os.path.splitext for POSIX paths: splits off the extension beginning at the
last dot, unless every character of the basename before that dot is a dot. -/
def splitext (p : String) : String × String :=
  let cs := p.data
  match lastIdxOf '.' cs with
  | none => (p, "")
  | some d =>
    let fstart : Nat :=
      match lastIdxOf '/' cs with
      | none => 0
      | some s => s + 1
    if fstart ≤ d ∧ hasNonDotBetween cs fstart d then
      (⟨cs.take d⟩, ⟨cs.drop d⟩)
    else
      (p, "")

/-- Record status in the epubs table. -/
inductive Status where
  | LOADING
  | PARSED
  | FAILED
deriving DecidableEq, Repr

/-- One row of the epub_chapters table. -/
structure ChapterRow where
  chapterid : Nat
  epubid : Nat
  chapterNumber : Nat
  title : String
  filename : String
deriving DecidableEq, Repr

/-- One row of the epubs table. -/
structure EpubRow where
  epubid : Nat
  owner : String
  title : String
  author : String
  originalFilename : String
  storedFilename : String
  status : Status
  errorMessage : Option String
deriving DecidableEq, Repr

/-- Committed database state visible to readers. -/
structure DBState where
  epubs : List EpubRow
  chapters : List ChapterRow
deriving DecidableEq, Repr

/-- Dublin Core metadata of a successfully opened epub: first title entry and
first creator entry, when present. -/
structure EpubMeta where
  dcTitle : Option String
  dcCreator : Option String
deriving DecidableEq, Repr

/-- _extract_epub_metadata: the book argument is the outcome of the guarded
read of the archive (error means the try block raised).  Returns (title,
author); on failure the fallback filename without extension (truncated to 512)
and the empty author. -/
def extract_epub_metadata (book : Except String EpubMeta) (fallbackName : String) :
    String × String :=
  let title0 := pytrunc (splitext fallbackName).1 512
  match book with
  | .error _ => (title0, "")
  | .ok m =>
    let title :=
      match m.dcTitle with
      | some t => if t = "" then title0 else pytrunc t 512
      | none => title0
    let author :=
      match m.dcCreator with
      | some c => if c = "" then "" else pytrunc c 512
      | none => ""
    (title, author)

/-- The decoded content of one spine document: the stripped plain text and the
stripped text of the first h1 / h2 / h3 tag when such a tag exists. -/
structure ParsedSection where
  text : String
  h1 : Option String
  h2 : Option String
  h3 : Option String
deriving DecidableEq, Repr

/-- One spine id resolved by the Worker loop. -/
inductive SpineEntry where
  | missing
  | nonDocument
  | nav
  | document (s : ParsedSection)
deriving DecidableEq, Repr

/-- Chapter title derivation in _parse_epub_chapters: the first of h1, h2, h3
found gives the title (truncated to 512) and the loop breaks; when the result
is still the empty string the title Chapter n is synthesized. -/
def deriveTitle (s : ParsedSection) (n : Nat) : String :=
  let fromHeadings :=
    match s.h1, s.h2, s.h3 with
    | some t, _, _ => pytrunc t 512
    | none, some t, _ => pytrunc t 512
    | none, none, some t => pytrunc t 512
    | none, none, none => ""
  if fromHeadings = "" then "Chapter " ++ toString n else fromHeadings

/-- The first heading element found, h1 before h2 before h3. -/
def firstHeading (s : ParsedSection) : Option String :=
  match s.h1 with
  | some t => some t
  | none =>
    match s.h2 with
    | some t => some t
    | none => s.h3

/-- Title derivation as the specification words it: the title of the first
heading found (truncated to 512), and Chapter n only when no heading exists. -/
def deriveTitleSpec (s : ParsedSection) (n : Nat) : String :=
  match firstHeading s with
  | some t => pytrunc t 512
  | none => "Chapter " ++ toString n

/-- Whether a spine entry is a non-navigation document with non-empty text:
exactly these consume a chapter number in the Worker loop. -/
def isContent : SpineEntry → Bool
  | .document s => !(pystrip s.text == "")
  | _ => false

/-- Number of non-empty content sections of a spine. -/
def countNonEmpty (l : List SpineEntry) : Nat := (l.filter isContent).length

/-- Environment of one background Worker run: the outcome of read_epub, the
injected failures (writing the chapter-text file of chapter n; the failure-flip
UPDATE or its commit; removing a given file during cleanup), and the uuid hex
name supply for chapter files. -/
structure WorkerEnv where
  book : Except String (List SpineEntry)
  writeFails : Nat → Option String
  statusWriteFails : Bool
  removeFails : String → Bool
  names : Nat → String

/-- Mutable state of the Worker's spine loop: chapter_number, the pending
(uncommitted) INSERTs of the open transaction, and chapter_files. -/
structure LoopState where
  n : Nat
  inserted : List ChapterRow
  files : List String
deriving DecidableEq, Repr

/-- The spine loop of _parse_epub_chapters.  Returns the exception message
when writing a chapter-text file raised, together with the loop state the
except handler sees. -/
def processEntries (epubid : Nat) (env : WorkerEnv) :
    List SpineEntry → LoopState → Option String × LoopState
  | [], st => (none, st)
  | .missing :: rest, st => processEntries epubid env rest st
  | .nonDocument :: rest, st => processEntries epubid env rest st
  | .nav :: rest, st => processEntries epubid env rest st
  | .document s :: rest, st =>
    if pystrip s.text = "" then
      processEntries epubid env rest st
    else
      match env.writeFails (st.n + 1) with
      | some msg => (some msg, st)
      | none =>
        let n := st.n + 1
        let fname := env.names n ++ ".txt"
        let row : ChapterRow :=
          { chapterid := n, epubid := epubid, chapterNumber := n,
            title := deriveTitle s n, filename := fname }
        processEntries epubid env rest
          { n := n, inserted := st.inserted ++ [row], files := st.files ++ [fname] }

/-- A committed view of one ingestion record: its status, error message and
the committed chapter rows. -/
structure Snapshot where
  status : Status
  errorMessage : Option String
  rows : List ChapterRow
deriving DecidableEq, Repr

/-- The record as submit committed it, before the Worker commits anything. -/
def initialSnap : Snapshot := ⟨.LOADING, none, []⟩

/-- The fixed error message stored when the spine yields no readable chapter. -/
def noChaptersMsg : String := "No readable chapters found in epub"

/-- Everything observable about one Worker run: the sequence of committed
snapshots (initial state first, one more per commit), the exception message if
the except handler ran, the rows INSERTed into the open transaction, the
chapter_files list, and the chapter-text blobs still on disk at the end. -/
structure WorkerResult where
  snapshots : List Snapshot
  raised : Option String
  inserted : List ChapterRow
  tracked : List String
  blobs : List String
deriving DecidableEq, Repr

/-- The last committed snapshot of a run (what a reader sees afterwards). -/
def finalView (r : WorkerResult) : Snapshot := r.snapshots.getLastD initialSnap

/-- The except handler of _parse_epub_chapters: best-effort removal of every
tracked chapter-text file (a failing removal is logged and skipped), then the
FAILED flip with the truncated exception detail — committed together with the
pending INSERTs — unless that write itself fails, in which case nothing is
committed and the record stays LOADING. -/
def failurePath (env : WorkerEnv) (msg : String) (st : LoopState) : WorkerResult :=
  let remaining := st.files.filter (fun f => env.removeFails f)
  if env.statusWriteFails then
    { snapshots := [initialSnap], raised := some msg,
      inserted := st.inserted, tracked := st.files, blobs := remaining }
  else
    { snapshots := [initialSnap, ⟨.FAILED, some (pytrunc msg 1024), st.inserted⟩],
      raised := some msg, inserted := st.inserted, tracked := st.files,
      blobs := remaining }

/-- _parse_epub_chapters, one run of the background Worker for record
epubid. -/
def workerRun (epubid : Nat) (env : WorkerEnv) : WorkerResult :=
  match env.book with
  | .error msg => failurePath env msg ⟨0, [], []⟩
  | .ok entries =>
    match processEntries epubid env entries ⟨0, [], []⟩ with
    | (some msg, st) => failurePath env msg st
    | (none, st) =>
      if st.n = 0 then
        { snapshots := [initialSnap, ⟨.FAILED, some noChaptersMsg, st.inserted⟩],
          raised := none, inserted := st.inserted, tracked := st.files,
          blobs := st.files }
      else
        { snapshots := [initialSnap, ⟨.PARSED, none, st.inserted⟩],
          raised := none, inserted := st.inserted, tracked := st.files,
          blobs := st.files }

/-- Database state in which one ingestion record exists with the given
committed snapshot. -/
def stateOf (epubid : Nat) (owner : String) (snap : Snapshot) : DBState :=
  { epubs := [{ epubid := epubid, owner := owner, title := "", author := "",
                originalFilename := "", storedFilename := "",
                status := snap.status, errorMessage := snap.errorMessage }],
    chapters := snap.rows }

/-- The chapter view returned by GET /api/epub/id/chapters. -/
structure ChapterView where
  id : String
  chapterNumber : Nat
  title : String
  filename : String
deriving DecidableEq, Repr

/-- Row to JSON view. -/
def ChapterRow.toView (r : ChapterRow) : ChapterView :=
  ⟨toString r.chapterid, r.chapterNumber, r.title, r.filename⟩

/-- ORDER BY chapter_number ASC comparison. -/
def chapLE (a b : ChapterRow) : Prop := a.chapterNumber ≤ b.chapterNumber

instance : DecidableRel chapLE := fun a b => Nat.decLe a.chapterNumber b.chapterNumber

instance : IsTotal ChapterRow chapLE :=
  ⟨fun a b => Nat.le_total a.chapterNumber b.chapterNumber⟩

instance : IsTrans ChapterRow chapLE :=
  ⟨fun _ _ _ hab hbc => Nat.le_trans hab hbc⟩

/-- SELECT from epub_chapters WHERE epubid = ? ORDER BY chapter_number ASC. -/
def chaptersQuery (st : DBState) (epubId : Nat) : List ChapterRow :=
  List.insertionSort chapLE (st.chapters.filter (fun c => c.epubid == epubId))

/-- Responses of GET /api/epub/id/chapters. -/
inductive ChaptersResponse where
  | forbidden
  | notFound
  | conflict (code : String)
  | ok (chapters : List ChapterView)
deriving DecidableEq, Repr

/-- epub_chapters endpoint: auth, ownership, status gate, then the ordered
chapter views. -/
def epub_chapters (st : DBState) (auth : Option String) (epubId : Nat) :
    ChaptersResponse :=
  match auth with
  | none => .forbidden
  | some username =>
    match st.epubs.find? (fun r => r.epubid == epubId) with
    | none => .notFound
    | some row =>
      if row.owner ≠ username then .forbidden
      else if row.status = .LOADING then .conflict "epub_still_loading"
      else if row.status = .FAILED then .conflict "epub_parse_failed"
      else .ok ((chaptersQuery st epubId).map ChapterRow.toView)

/-- The record view returned by GET /api/epub/id (the fields the claims are
about). -/
structure EpubDetailView where
  status : Status
  errorMessage : Option String
  chapterCount : Nat
deriving DecidableEq, Repr

/-- Responses of GET /api/epub/id. -/
inductive DetailResponse where
  | forbidden
  | notFound
  | ok (v : EpubDetailView)
deriving DecidableEq, Repr

/-- epub_detail endpoint: auth, ownership, then the record view with the
derived chapter count. -/
def epub_detail (st : DBState) (auth : Option String) (epubId : Nat) :
    DetailResponse :=
  match auth with
  | none => .forbidden
  | some username =>
    match st.epubs.find? (fun r => r.epubid == epubId) with
    | none => .notFound
    | some row =>
      if row.owner ≠ username then .forbidden
      else .ok ⟨row.status, row.errorMessage,
                (st.chapters.filter (fun c => c.epubid == epubId)).length⟩

/-- Responses of POST /api/epub. -/
inductive UploadResponse where
  | forbidden
  | badRequest
  | typeError (code : String) (message : String)
  | created (title author : String) (status : Status)
deriving DecidableEq, Repr

/-- Result of one epub_upload call: the response plus whether the blob was
saved and whether the ingestion record was inserted. -/
structure SubmitResult where
  response : UploadResponse
  blobWritten : Bool
  recordCreated : Bool
deriving DecidableEq, Repr

/-- epub_upload endpoint: auth, payload and filename validation, the
case-insensitive extension check, and only then blob save, metadata extraction
and record creation. -/
def epub_upload (auth : Option String) (file : Option String)
    (meta : Except String EpubMeta) : SubmitResult :=
  match auth with
  | none => ⟨.forbidden, false, false⟩
  | some _ =>
    match file with
    | none => ⟨.badRequest, false, false⟩
    | some filename =>
      if filename = "" then ⟨.badRequest, false, false⟩
      else if pylower (splitext filename).2 ≠ ".epub" then
        ⟨.typeError "invalid_file_type" "Only .epub files are accepted",
          false, false⟩
      else
        let ta := extract_epub_metadata meta filename
        ⟨.created ta.1 ta.2 .LOADING, true, true⟩

/-- When no chapter-file write fails, the spine loop raises nothing, counts
exactly the non-empty content sections, numbers the inserted rows
consecutively from the inherited count, inserts only rows of this record, and
grows the inserted list by one row per non-empty section. -/
theorem processEntries_no_fail (epubid : Nat) (env : WorkerEnv)
    (hW : ∀ n, env.writeFails n = none) :
    ∀ (entries : List SpineEntry) (st : LoopState),
      (processEntries epubid env entries st).1 = none ∧
      (processEntries epubid env entries st).2.n = st.n + countNonEmpty entries ∧
      (processEntries epubid env entries st).2.inserted.map (fun r => r.chapterNumber)
        = st.inserted.map (fun r => r.chapterNumber)
          ++ List.range' (st.n + 1) (countNonEmpty entries) ∧
      (∀ r ∈ (processEntries epubid env entries st).2.inserted,
        r ∈ st.inserted ∨ r.epubid = epubid) ∧
      (processEntries epubid env entries st).2.inserted.length
        = st.inserted.length + countNonEmpty entries
  | [], st =>
      ⟨rfl, by simp [processEntries, countNonEmpty],
        by simp [processEntries, countNonEmpty],
        fun r hr => Or.inl hr, by simp [processEntries, countNonEmpty]⟩
  | .missing :: rest, st => by
      simpa [processEntries, countNonEmpty, isContent, List.filter_cons] using
        processEntries_no_fail epubid env hW rest st
  | .nonDocument :: rest, st => by
      simpa [processEntries, countNonEmpty, isContent, List.filter_cons] using
        processEntries_no_fail epubid env hW rest st
  | .nav :: rest, st => by
      simpa [processEntries, countNonEmpty, isContent, List.filter_cons] using
        processEntries_no_fail epubid env hW rest st
  | .document s :: rest, st => by
      by_cases h : pystrip s.text = ""
      · simpa [processEntries, h, countNonEmpty, isContent, List.filter_cons] using
          processEntries_no_fail epubid env hW rest st
      · have hw := hW (st.n + 1)
        have hred : processEntries epubid env (SpineEntry.document s :: rest) st
            = processEntries epubid env rest
              { n := st.n + 1,
                inserted := st.inserted ++
                  [{ chapterid := st.n + 1, epubid := epubid,
                     chapterNumber := st.n + 1, title := deriveTitle s (st.n + 1),
                     filename := env.names (st.n + 1) ++ ".txt" }],
                files := st.files ++ [env.names (st.n + 1) ++ ".txt"] } := by
          simp [processEntries, h, hw]
        have ih := processEntries_no_fail epubid env hW rest
          { n := st.n + 1,
            inserted := st.inserted ++
              [{ chapterid := st.n + 1, epubid := epubid,
                 chapterNumber := st.n + 1, title := deriveTitle s (st.n + 1),
                 filename := env.names (st.n + 1) ++ ".txt" }],
            files := st.files ++ [env.names (st.n + 1) ++ ".txt"] }
        obtain ⟨ih1, ih2, ih3, ih4, ih5⟩ := ih
        simp only at ih2 ih3 ih4 ih5
        have hcnt : countNonEmpty (SpineEntry.document s :: rest)
            = countNonEmpty rest + 1 := by
          simp [countNonEmpty, isContent, List.filter_cons, h]
        rw [hred, hcnt]
        refine ⟨ih1, ?_, ?_, ?_, ?_⟩
        · rw [ih2]; omega
        · rw [ih3]
          have h2 : st.n + 1 + 1 = st.n + 2 := by omega
          simp [List.map_append, List.range'_succ, List.append_assoc, h2]
        · intro r hr
          rcases ih4 r hr with hmem | hepub
          · rcases List.mem_append.mp hmem with hmem2 | hmem2
            · exact Or.inl hmem2
            · right
              rw [List.mem_singleton.mp hmem2]
          · exact Or.inr hepub
        · rw [ih5]; simp; omega

/-- Shape of a successful Worker run with at least one non-empty section:
exactly one commit, publishing the PARSED flip together with all rows, which
are numbered 1..N, belong to this record, and are N in number. -/
theorem workerRun_success_shape (epubid : Nat) (env : WorkerEnv)
    (entries : List SpineEntry)
    (hbook : env.book = .ok entries) (hW : ∀ n, env.writeFails n = none)
    (hN : 0 < countNonEmpty entries) :
    ∃ rows files,
      workerRun epubid env =
        { snapshots := [initialSnap, ⟨.PARSED, none, rows⟩],
          raised := none, inserted := rows, tracked := files, blobs := files } ∧
      rows.map (fun r => r.chapterNumber) = List.range' 1 (countNonEmpty entries) ∧
      (∀ r ∈ rows, r.epubid = epubid) ∧
      rows.length = countNonEmpty entries := by
  rcases hpe : processEntries epubid env entries ⟨0, [], []⟩ with ⟨o, st⟩
  have h := processEntries_no_fail epubid env hW entries ⟨0, [], []⟩
  rw [hpe] at h
  obtain ⟨h1, h2, h3, h4, h5⟩ := h
  simp only at h1 h2 h3 h4 h5
  subst h1
  refine ⟨st.inserted, st.files, ?_, ?_, ?_, ?_⟩
  · have hn0 : ¬ st.n = 0 := by omega
    simp [workerRun, hbook, hpe, hn0]
  · simpa using h3
  · intro r hr
    rcases h4 r hr with hmem | hepub
    · simp at hmem
    · exact hepub
  · simpa using h5

/-- Rows all belonging to one record pass the WHERE epubid filter whole. -/
theorem filter_rows_of_all (epubid : Nat) (rows : List ChapterRow)
    (hall : ∀ r ∈ rows, r.epubid = epubid) :
    rows.filter (fun c => c.epubid == epubid) = rows :=
  List.filter_eq_self.mpr (fun a ha => by simp [hall a ha])

/-- GET /api/epub/id by the owner on a committed snapshot returns the
snapshot's status, error message and chapter count. -/
theorem epub_detail_stateOf (epubid : Nat) (owner : String) (snap : Snapshot)
    (hall : ∀ r ∈ snap.rows, r.epubid = epubid) :
    epub_detail (stateOf epubid owner snap) (some owner) epubid =
      .ok ⟨snap.status, snap.errorMessage, snap.rows.length⟩ := by
  simp [epub_detail, stateOf, List.find?, filter_rows_of_all epubid snap.rows hall]

/-- GET /api/epub/id/chapters by the owner while the snapshot is LOADING is
the epub_still_loading conflict. -/
theorem epub_chapters_stateOf_loading (epubid : Nat) (owner : String)
    (snap : Snapshot) (hst : snap.status = .LOADING) :
    epub_chapters (stateOf epubid owner snap) (some owner) epubid =
      .conflict "epub_still_loading" := by
  simp [epub_chapters, stateOf, List.find?, hst]

/-- GET /api/epub/id/chapters by the owner on a PARSED snapshot whose rows
are already sorted returns exactly those rows as views. -/
theorem epub_chapters_stateOf_parsed (epubid : Nat) (owner : String)
    (snap : Snapshot) (hst : snap.status = .PARSED)
    (hall : ∀ r ∈ snap.rows, r.epubid = epubid)
    (hsorted : snap.rows.Pairwise chapLE) :
    epub_chapters (stateOf epubid owner snap) (some owner) epubid =
      .ok (snap.rows.map ChapterRow.toView) := by
  have hs : List.Sorted chapLE snap.rows := hsorted
  simp [epub_chapters, stateOf, List.find?, hst, chaptersQuery,
        filter_rows_of_all epubid snap.rows hall, hs.insertionSort_eq]

/-- Rows whose chapter numbers read off as a range are sorted for ORDER BY
chapter_number. -/
theorem pairwise_of_map_range (rows : List ChapterRow) (a n : Nat)
    (h : rows.map (fun r => r.chapterNumber) = List.range' a n) :
    rows.Pairwise chapLE := by
  have hle : List.Pairwise (fun x y : Nat => x ≤ y)
      (rows.map (fun r => r.chapterNumber)) := by
    rw [h]
    exact List.pairwise_le_range' a n
  have h2 := List.pairwise_map.mp hle
  exact h2

/-- Claim C1: during a successful ingestion every committed state a reader can
observe via get or listChapters shows either zero ChapterRecords under
status LOADING or the complete chapter set under status PARSED, never a
partial set: the Worker publishes all chapter inserts and the terminal status
flip in a single commit. -/
theorem reader_sees_none_or_all (epubid : Nat) (owner : String)
    (env : WorkerEnv) (entries : List SpineEntry)
    (hbook : env.book = .ok entries)
    (hW : ∀ n, env.writeFails n = none)
    (hN : 0 < countNonEmpty entries) :
    ∀ snap ∈ (workerRun epubid env).snapshots,
      (snap.status = .LOADING ∧ snap.rows = [] ∧
        epub_detail (stateOf epubid owner snap) (some owner) epubid =
          .ok ⟨.LOADING, none, 0⟩ ∧
        epub_chapters (stateOf epubid owner snap) (some owner) epubid =
          .conflict "epub_still_loading") ∨
      (snap.status = .PARSED ∧ snap.rows = (workerRun epubid env).inserted ∧
        (workerRun epubid env).inserted.length = countNonEmpty entries ∧
        epub_detail (stateOf epubid owner snap) (some owner) epubid =
          .ok ⟨.PARSED, none, countNonEmpty entries⟩ ∧
        epub_chapters (stateOf epubid owner snap) (some owner) epubid =
          .ok ((workerRun epubid env).inserted.map ChapterRow.toView)) := by
  obtain ⟨rows, files, heq, hmap, hall, hlen⟩ :=
    workerRun_success_shape epubid env entries hbook hW hN
  rw [heq]
  intro snap hsnap
  simp only [List.mem_cons, List.not_mem_nil, or_false] at hsnap
  rcases hsnap with h | h
  · subst h
    left
    refine ⟨rfl, rfl, ?_, ?_⟩
    · simpa [initialSnap] using
        epub_detail_stateOf epubid owner initialSnap (by simp [initialSnap])
    · exact epub_chapters_stateOf_loading epubid owner initialSnap rfl
  · subst h
    right
    have hsorted := pairwise_of_map_range rows 1 (countNonEmpty entries) hmap
    refine ⟨rfl, rfl, hlen, ?_, ?_⟩
    · simpa [hlen] using
        epub_detail_stateOf epubid owner ⟨.PARSED, none, rows⟩ hall
    · exact epub_chapters_stateOf_parsed epubid owner ⟨.PARSED, none, rows⟩
        rfl hall hsorted

/-- Witness for C1 on a concrete one-chapter spine, instantiated at the
committed PARSED snapshot. -/
theorem reader_sees_none_or_all_witness :
    ((⟨.PARSED, none, [⟨1, 7, 1, "T", "f1.txt"⟩]⟩ : Snapshot).status =
        .LOADING ∧
      (⟨.PARSED, none, [⟨1, 7, 1, "T", "f1.txt"⟩]⟩ : Snapshot).rows = [] ∧
      epub_detail
        (stateOf 7 "alice" ⟨.PARSED, none, [⟨1, 7, 1, "T", "f1.txt"⟩]⟩)
        (some "alice") 7 = .ok ⟨.LOADING, none, 0⟩ ∧
      epub_chapters
        (stateOf 7 "alice" ⟨.PARSED, none, [⟨1, 7, 1, "T", "f1.txt"⟩]⟩)
        (some "alice") 7 = .conflict "epub_still_loading") ∨
    ((⟨.PARSED, none, [⟨1, 7, 1, "T", "f1.txt"⟩]⟩ : Snapshot).status =
        .PARSED ∧
      (⟨.PARSED, none, [⟨1, 7, 1, "T", "f1.txt"⟩]⟩ : Snapshot).rows =
        (workerRun 7 ⟨.ok [.nav,
          .document ⟨"Hello", some "T", none, none⟩], fun _ => none, false,
          fun _ => false, fun n => "f" ++ toString n⟩).inserted ∧
      (workerRun 7 ⟨.ok [.nav,
        .document ⟨"Hello", some "T", none, none⟩], fun _ => none, false,
        fun _ => false, fun n => "f" ++ toString n⟩).inserted.length =
        countNonEmpty [.nav, .document ⟨"Hello", some "T", none, none⟩] ∧
      epub_detail
        (stateOf 7 "alice" ⟨.PARSED, none, [⟨1, 7, 1, "T", "f1.txt"⟩]⟩)
        (some "alice") 7 =
        .ok ⟨.PARSED, none,
          countNonEmpty [.nav, .document ⟨"Hello", some "T", none, none⟩]⟩ ∧
      epub_chapters
        (stateOf 7 "alice" ⟨.PARSED, none, [⟨1, 7, 1, "T", "f1.txt"⟩]⟩)
        (some "alice") 7 =
        .ok ((workerRun 7 ⟨.ok [.nav,
          .document ⟨"Hello", some "T", none, none⟩], fun _ => none, false,
          fun _ => false, fun n => "f" ++ toString n⟩).inserted.map
            ChapterRow.toView)) :=
  reader_sees_none_or_all 7 "alice" _ _ rfl (fun _ => rfl) (by decide)
    ⟨.PARSED, none, [⟨1, 7, 1, "T", "f1.txt"⟩]⟩ (by decide)

/-- Claim C2: for a valid archive with N non-empty content sections, the
Worker ends with status PARSED, chapterCount equals N, and the chapters it
returns carry chapter numbers exactly 1..N gapless in ascending order. -/
theorem worker_success_chapter_set (epubid : Nat) (owner : String)
    (env : WorkerEnv) (entries : List SpineEntry)
    (hbook : env.book = .ok entries)
    (hW : ∀ n, env.writeFails n = none)
    (hN : 0 < countNonEmpty entries) :
    (finalView (workerRun epubid env)).status = .PARSED ∧
    (workerRun epubid env).inserted.map (fun r => r.chapterNumber)
      = List.range' 1 (countNonEmpty entries) ∧
    (workerRun epubid env).inserted.length = countNonEmpty entries ∧
    epub_detail (stateOf epubid owner (finalView (workerRun epubid env)))
        (some owner) epubid = .ok ⟨.PARSED, none, countNonEmpty entries⟩ ∧
    epub_chapters (stateOf epubid owner (finalView (workerRun epubid env)))
        (some owner) epubid
      = .ok ((workerRun epubid env).inserted.map ChapterRow.toView) ∧
    ((workerRun epubid env).inserted.map ChapterRow.toView).map
        (fun v => v.chapterNumber)
      = List.range' 1 (countNonEmpty entries) := by
  obtain ⟨rows, files, heq, hmap, hall, hlen⟩ :=
    workerRun_success_shape epubid env entries hbook hW hN
  rw [heq]
  have hfinal : finalView
      { snapshots := [initialSnap, ⟨.PARSED, none, rows⟩], raised := none,
        inserted := rows, tracked := files,
        blobs := files : WorkerResult } = ⟨.PARSED, none, rows⟩ := by
    simp [finalView]
  rw [hfinal]
  have hsorted := pairwise_of_map_range rows 1 (countNonEmpty entries) hmap
  refine ⟨rfl, hmap, hlen, ?_, ?_, ?_⟩
  · simpa [hlen] using
      epub_detail_stateOf epubid owner ⟨.PARSED, none, rows⟩ hall
  · exact epub_chapters_stateOf_parsed epubid owner ⟨.PARSED, none, rows⟩
      rfl hall hsorted
  · simpa [List.map_map, Function.comp, ChapterRow.toView] using hmap

/-- Witness for C2 on a concrete three-chapter spine with one skipped empty
section. -/
theorem worker_success_chapter_set_witness :
    (finalView (workerRun 3 ⟨.ok [.document ⟨"A", some "One", none, none⟩,
        .document ⟨"  ", none, none, none⟩,
        .document ⟨"B", none, some "Two", none⟩,
        .document ⟨"C", none, none, none⟩], fun _ => none, false,
        fun _ => false, fun n => "g" ++ toString n⟩)).status = .PARSED ∧
    (workerRun 3 ⟨.ok [.document ⟨"A", some "One", none, none⟩,
        .document ⟨"  ", none, none, none⟩,
        .document ⟨"B", none, some "Two", none⟩,
        .document ⟨"C", none, none, none⟩], fun _ => none, false,
        fun _ => false, fun n => "g" ++ toString n⟩).inserted.map
        (fun r => r.chapterNumber)
      = List.range' 1 (countNonEmpty [.document ⟨"A", some "One", none, none⟩,
          .document ⟨"  ", none, none, none⟩,
          .document ⟨"B", none, some "Two", none⟩,
          .document ⟨"C", none, none, none⟩]) ∧
    (workerRun 3 ⟨.ok [.document ⟨"A", some "One", none, none⟩,
        .document ⟨"  ", none, none, none⟩,
        .document ⟨"B", none, some "Two", none⟩,
        .document ⟨"C", none, none, none⟩], fun _ => none, false,
        fun _ => false, fun n => "g" ++ toString n⟩).inserted.length
      = countNonEmpty [.document ⟨"A", some "One", none, none⟩,
          .document ⟨"  ", none, none, none⟩,
          .document ⟨"B", none, some "Two", none⟩,
          .document ⟨"C", none, none, none⟩] ∧
    epub_detail (stateOf 3 "bob" (finalView (workerRun 3
        ⟨.ok [.document ⟨"A", some "One", none, none⟩,
          .document ⟨"  ", none, none, none⟩,
          .document ⟨"B", none, some "Two", none⟩,
          .document ⟨"C", none, none, none⟩], fun _ => none, false,
          fun _ => false, fun n => "g" ++ toString n⟩))) (some "bob") 3
      = .ok ⟨.PARSED, none,
          countNonEmpty [.document ⟨"A", some "One", none, none⟩,
            .document ⟨"  ", none, none, none⟩,
            .document ⟨"B", none, some "Two", none⟩,
            .document ⟨"C", none, none, none⟩]⟩ ∧
    epub_chapters (stateOf 3 "bob" (finalView (workerRun 3
        ⟨.ok [.document ⟨"A", some "One", none, none⟩,
          .document ⟨"  ", none, none, none⟩,
          .document ⟨"B", none, some "Two", none⟩,
          .document ⟨"C", none, none, none⟩], fun _ => none, false,
          fun _ => false, fun n => "g" ++ toString n⟩))) (some "bob") 3
      = .ok ((workerRun 3 ⟨.ok [.document ⟨"A", some "One", none, none⟩,
          .document ⟨"  ", none, none, none⟩,
          .document ⟨"B", none, some "Two", none⟩,
          .document ⟨"C", none, none, none⟩], fun _ => none, false,
          fun _ => false, fun n => "g" ++ toString n⟩).inserted.map
            ChapterRow.toView) ∧
    ((workerRun 3 ⟨.ok [.document ⟨"A", some "One", none, none⟩,
        .document ⟨"  ", none, none, none⟩,
        .document ⟨"B", none, some "Two", none⟩,
        .document ⟨"C", none, none, none⟩], fun _ => none, false,
        fun _ => false, fun n => "g" ++ toString n⟩).inserted.map
          ChapterRow.toView).map (fun v => v.chapterNumber)
      = List.range' 1 (countNonEmpty [.document ⟨"A", some "One", none, none⟩,
          .document ⟨"  ", none, none, none⟩,
          .document ⟨"B", none, some "Two", none⟩,
          .document ⟨"C", none, none, none⟩]) :=
  worker_success_chapter_set 3 "bob" _ _ rfl (fun _ => rfl) (by decide)

/-- Observable contract of the except handler. -/
theorem failurePath_spec (env : WorkerEnv) (msg : String) (st : LoopState) :
    (failurePath env msg st).raised = some msg ∧
    (failurePath env msg st).blobs =
      (failurePath env msg st).tracked.filter (fun f => env.removeFails f) ∧
    (failurePath env msg st).tracked = st.files ∧
    (failurePath env msg st).inserted = st.inserted ∧
    (env.statusWriteFails = false →
      (failurePath env msg st).snapshots =
        [initialSnap, ⟨.FAILED, some (pytrunc msg 1024), st.inserted⟩]) ∧
    (env.statusWriteFails = true →
      (failurePath env msg st).snapshots = [initialSnap]) := by
  by_cases hs : env.statusWriteFails <;> simp [failurePath, hs]

/-- A run that recorded a raised exception went through the except handler. -/
theorem workerRun_raised_inv (epubid : Nat) (env : WorkerEnv) (msg : String)
    (h : (workerRun epubid env).raised = some msg) :
    ∃ st, workerRun epubid env = failurePath env msg st := by
  rcases hbook : env.book with m | entries
  · have hrun : workerRun epubid env = failurePath env m ⟨0, [], []⟩ := by
      simp [workerRun, hbook]
    rw [hrun] at h
    rw [(failurePath_spec env m ⟨0, [], []⟩).1] at h
    obtain rfl := Option.some.inj h
    exact ⟨⟨0, [], []⟩, hrun⟩
  · rcases hpe : processEntries epubid env entries ⟨0, [], []⟩ with ⟨o, st⟩
    rcases o with _ | m
    · exfalso
      by_cases hn : st.n = 0 <;> simp [workerRun, hbook, hpe, hn] at h
    · have hrun : workerRun epubid env = failurePath env m st := by
        simp [workerRun, hbook, hpe]
      rw [hrun] at h
      rw [(failurePath_spec env m st).1] at h
      obtain rfl := Option.some.inj h
      exact ⟨st, hrun⟩

/-- Claim C3: whenever the Worker's run raises, every chapter-text blob whose
removal does not itself fail is deleted (best-effort cleanup over all tracked
blobs); if the failure flip succeeds the record is committed FAILED with the
exception detail truncated to 1024 characters, and if the failure flip itself
fails nothing is committed, so the record remains LOADING with no chapter
rows. -/
theorem worker_failure_cleanup (epubid : Nat) (env : WorkerEnv) (msg : String)
    (h : (workerRun epubid env).raised = some msg) :
    (workerRun epubid env).blobs =
      (workerRun epubid env).tracked.filter (fun f => env.removeFails f) ∧
    ((∀ f, env.removeFails f = false) → (workerRun epubid env).blobs = []) ∧
    (env.statusWriteFails = false →
      (finalView (workerRun epubid env)).status = .FAILED ∧
      (finalView (workerRun epubid env)).errorMessage =
        some (pytrunc msg 1024)) ∧
    (env.statusWriteFails = true →
      (workerRun epubid env).snapshots = [initialSnap] ∧
      (finalView (workerRun epubid env)).status = .LOADING ∧
      (finalView (workerRun epubid env)).rows = []) := by
  obtain ⟨st, hrun⟩ := workerRun_raised_inv epubid env msg h
  obtain ⟨hr, hb, ht, hi, hok, hbad⟩ := failurePath_spec env msg st
  rw [hrun]
  refine ⟨hb, ?_, ?_, ?_⟩
  · intro hall
    rw [hb, ht]
    simp [hall]
  · intro hs
    rw [finalView, hok hs]
    simp
  · intro hs
    refine ⟨hbad hs, ?_, ?_⟩ <;> rw [finalView, hbad hs] <;> simp [initialSnap]

/-- Witness for C3: a corrupt archive with a successful failure flip. -/
theorem worker_failure_cleanup_witness :
    (workerRun 9 ⟨.error "bad zip", fun _ => none, false, fun _ => false,
        fun n => "w" ++ toString n⟩).blobs =
      (workerRun 9 ⟨.error "bad zip", fun _ => none, false, fun _ => false,
        fun n => "w" ++ toString n⟩).tracked.filter (fun _ => false) ∧
    ((∀ _f : String, false = false) →
      (workerRun 9 ⟨.error "bad zip", fun _ => none, false, fun _ => false,
        fun n => "w" ++ toString n⟩).blobs = []) ∧
    (false = false →
      (finalView (workerRun 9 ⟨.error "bad zip", fun _ => none, false,
        fun _ => false, fun n => "w" ++ toString n⟩)).status = .FAILED ∧
      (finalView (workerRun 9 ⟨.error "bad zip", fun _ => none, false,
        fun _ => false, fun n => "w" ++ toString n⟩)).errorMessage =
        some (pytrunc "bad zip" 1024)) ∧
    (false = true →
      (workerRun 9 ⟨.error "bad zip", fun _ => none, false, fun _ => false,
        fun n => "w" ++ toString n⟩).snapshots = [initialSnap] ∧
      (finalView (workerRun 9 ⟨.error "bad zip", fun _ => none, false,
        fun _ => false, fun n => "w" ++ toString n⟩)).status = .LOADING ∧
      (finalView (workerRun 9 ⟨.error "bad zip", fun _ => none, false,
        fun _ => false, fun n => "w" ++ toString n⟩)).rows = []) :=
  worker_failure_cleanup 9 _ "bad zip" rfl

/-- Wherever the spine loop stops, every row it has inserted belongs to this
record. -/
theorem processEntries_inserted_epubid (epubid : Nat) (env : WorkerEnv) :
    ∀ (entries : List SpineEntry) (st : LoopState),
      (∀ r ∈ st.inserted, r.epubid = epubid) →
      ∀ r ∈ (processEntries epubid env entries st).2.inserted, r.epubid = epubid
  | [], st => fun hst => hst
  | .missing :: rest, st => fun hst => by
      simpa [processEntries] using
        processEntries_inserted_epubid epubid env rest st hst
  | .nonDocument :: rest, st => fun hst => by
      simpa [processEntries] using
        processEntries_inserted_epubid epubid env rest st hst
  | .nav :: rest, st => fun hst => by
      simpa [processEntries] using
        processEntries_inserted_epubid epubid env rest st hst
  | .document s :: rest, st => fun hst => by
      by_cases h : pystrip s.text = ""
      · simpa [processEntries, h] using
          processEntries_inserted_epubid epubid env rest st hst
      · rcases hw : env.writeFails (st.n + 1) with _ | m
        · have hst2 : ∀ r ∈ st.inserted ++
              [{ chapterid := st.n + 1, epubid := epubid,
                 chapterNumber := st.n + 1, title := deriveTitle s (st.n + 1),
                 filename := env.names (st.n + 1) ++ ".txt" : ChapterRow }],
              r.epubid = epubid := by
            intro r hr
            rcases List.mem_append.mp hr with hr2 | hr2
            · exact hst r hr2
            · rw [List.mem_singleton.mp hr2]
          have ih := processEntries_inserted_epubid epubid env rest
            { n := st.n + 1,
              inserted := st.inserted ++
                [{ chapterid := st.n + 1, epubid := epubid,
                   chapterNumber := st.n + 1, title := deriveTitle s (st.n + 1),
                   filename := env.names (st.n + 1) ++ ".txt" }],
              files := st.files ++ [env.names (st.n + 1) ++ ".txt"] } hst2
          simpa [processEntries, h, hw] using ih
        · simpa [processEntries, h, hw] using hst

/-- Every row a Worker run inserts belongs to the record it was started
for. -/
theorem workerRun_inserted_epubid (epubid : Nat) (env : WorkerEnv) :
    ∀ r ∈ (workerRun epubid env).inserted, r.epubid = epubid := by
  rcases hbook : env.book with m | entries
  · intro r hr
    by_cases hs : env.statusWriteFails <;>
      simp [workerRun, hbook, failurePath, hs] at hr
  · have hall := processEntries_inserted_epubid epubid env entries ⟨0, [], []⟩
      (by intro r hr; simp at hr)
    rcases hpe : processEntries epubid env entries ⟨0, [], []⟩ with ⟨o, st⟩
    rw [hpe] at hall
    simp only at hall
    rcases o with _ | m
    · by_cases hn : st.n = 0 <;> intro r hr <;>
        simp [workerRun, hbook, hpe, hn] at hr <;> exact hall r hr
    · intro r hr
      have hi := (failurePath_spec env m st).2.2.2.1
      have hrun : workerRun epubid env = failurePath env m st := by
        simp [workerRun, hbook, hpe]
      rw [hrun, hi] at hr
      exact hall r hr

/-- Claim C4: when the Worker raises after inserting rows and the failure
flip succeeds, the commit of the FAILED status also commits the pending
chapter rows, so get reports their count as chapterCount even though the
chapter-text blobs were removed during cleanup. -/
theorem failure_commits_pending_rows (epubid : Nat) (owner : String)
    (env : WorkerEnv) (msg : String)
    (h : (workerRun epubid env).raised = some msg)
    (hs : env.statusWriteFails = false) :
    (finalView (workerRun epubid env)).status = .FAILED ∧
    (finalView (workerRun epubid env)).rows = (workerRun epubid env).inserted ∧
    epub_detail (stateOf epubid owner (finalView (workerRun epubid env)))
        (some owner) epubid =
      .ok ⟨.FAILED, some (pytrunc msg 1024),
           (workerRun epubid env).inserted.length⟩ := by
  have hall := workerRun_inserted_epubid epubid env
  obtain ⟨st, hrun⟩ := workerRun_raised_inv epubid env msg h
  obtain ⟨hr, hb, ht, hi, hok, hbad⟩ := failurePath_spec env msg st
  rw [hrun] at hall ⊢
  have hfv : finalView (failurePath env msg st) =
      ⟨.FAILED, some (pytrunc msg 1024), st.inserted⟩ := by
    rw [finalView, hok hs]
    simp
  rw [hfv, hi]
  refine ⟨rfl, rfl, ?_⟩
  have hall2 : ∀ r ∈ (⟨.FAILED, some (pytrunc msg 1024), st.inserted⟩ :
      Snapshot).rows, r.epubid = epubid := by
    intro r hr
    exact hall r (by rw [hi]; exact hr)
  simpa using epub_detail_stateOf epubid owner
    ⟨.FAILED, some (pytrunc msg 1024), st.inserted⟩ hall2

/-- Witness for C4: the write of chapter 2's text file raises after chapter 1
was inserted; the run ends FAILED with one committed chapter row and no
remaining blobs. -/
theorem failure_commits_pending_rows_witness :
    (workerRun 4 ⟨.ok [.document ⟨"A", some "One", none, none⟩,
        .document ⟨"B", none, none, none⟩],
        fun n => if n = 2 then some "disk full" else none, false,
        fun _ => false, fun n => "u" ++ toString n⟩).inserted.length = 1 ∧
    (workerRun 4 ⟨.ok [.document ⟨"A", some "One", none, none⟩,
        .document ⟨"B", none, none, none⟩],
        fun n => if n = 2 then some "disk full" else none, false,
        fun _ => false, fun n => "u" ++ toString n⟩).blobs = [] ∧
    ((finalView (workerRun 4 ⟨.ok [.document ⟨"A", some "One", none, none⟩,
        .document ⟨"B", none, none, none⟩],
        fun n => if n = 2 then some "disk full" else none, false,
        fun _ => false, fun n => "u" ++ toString n⟩)).status = .FAILED ∧
      (finalView (workerRun 4 ⟨.ok [.document ⟨"A", some "One", none, none⟩,
        .document ⟨"B", none, none, none⟩],
        fun n => if n = 2 then some "disk full" else none, false,
        fun _ => false, fun n => "u" ++ toString n⟩)).rows =
        (workerRun 4 ⟨.ok [.document ⟨"A", some "One", none, none⟩,
          .document ⟨"B", none, none, none⟩],
          fun n => if n = 2 then some "disk full" else none, false,
          fun _ => false, fun n => "u" ++ toString n⟩).inserted ∧
      epub_detail (stateOf 4 "erin" (finalView (workerRun 4
          ⟨.ok [.document ⟨"A", some "One", none, none⟩,
            .document ⟨"B", none, none, none⟩],
            fun n => if n = 2 then some "disk full" else none, false,
            fun _ => false, fun n => "u" ++ toString n⟩))) (some "erin") 4 =
        .ok ⟨.FAILED, some (pytrunc "disk full" 1024),
             (workerRun 4 ⟨.ok [.document ⟨"A", some "One", none, none⟩,
               .document ⟨"B", none, none, none⟩],
               fun n => if n = 2 then some "disk full" else none, false,
               fun _ => false, fun n => "u" ++ toString n⟩).inserted.length⟩) :=
  ⟨by decide, by decide,
    failure_commits_pending_rows 4 "erin" _ "disk full" (by decide) rfl⟩

/-- Counterexample to claim C5 as stated: with an archive yielding zero
non-empty sections the Worker does flip to FAILED, but the stored fixed
message is not the claimed string: it reads No readable chapters found in
epub. -/
theorem no_chapters_message_counterexample :
    (finalView (workerRun 1 ⟨.ok [], fun _ => none, false, fun _ => false,
        fun n => "z" ++ toString n⟩)).status = .FAILED ∧
    (finalView (workerRun 1 ⟨.ok [], fun _ => none, false, fun _ => false,
        fun n => "z" ++ toString n⟩)).errorMessage =
      some "No readable chapters found in epub" ∧
    (finalView (workerRun 1 ⟨.ok [], fun _ => none, false, fun _ => false,
        fun n => "z" ++ toString n⟩)).errorMessage ≠
      some "No readable chapters found" := by
  refine ⟨rfl, rfl, ?_⟩
  decide

/-- Claim C5 (amended): for an archive producing zero non-empty content
sections and no error the Worker flips the record to FAILED with the fixed
message No readable chapters found in epub, the errorMessage is non-empty,
and no ChapterRecords exist, so chapterCount is 0. -/
theorem worker_zero_sections (epubid : Nat) (owner : String)
    (env : WorkerEnv) (entries : List SpineEntry)
    (hbook : env.book = .ok entries)
    (hW : ∀ n, env.writeFails n = none)
    (hN : countNonEmpty entries = 0) :
    (finalView (workerRun epubid env)).status = .FAILED ∧
    (finalView (workerRun epubid env)).errorMessage = some noChaptersMsg ∧
    noChaptersMsg ≠ "" ∧
    (workerRun epubid env).inserted = [] ∧
    epub_detail (stateOf epubid owner (finalView (workerRun epubid env)))
        (some owner) epubid = .ok ⟨.FAILED, some noChaptersMsg, 0⟩ := by
  rcases hpe : processEntries epubid env entries ⟨0, [], []⟩ with ⟨o, st⟩
  have hlem := processEntries_no_fail epubid env hW entries ⟨0, [], []⟩
  rw [hpe] at hlem
  obtain ⟨h1, h2, h3, h4, h5⟩ := hlem
  simp only at h1 h2 h3 h4 h5
  subst h1
  rw [hN] at h2 h5
  have hn : st.n = 0 := by omega
  have hins : st.inserted = [] := List.length_eq_zero.mp (by simpa using h5)
  have hrun : workerRun epubid env =
      { snapshots := [initialSnap, ⟨.FAILED, some noChaptersMsg, st.inserted⟩],
        raised := none, inserted := st.inserted, tracked := st.files,
        blobs := st.files } := by
    simp [workerRun, hbook, hpe, hn]
  rw [hrun, hins]
  have hfv : finalView
      { snapshots := [initialSnap,
          ⟨.FAILED, some noChaptersMsg, ([] : List ChapterRow)⟩],
        raised := none, inserted := ([] : List ChapterRow),
        tracked := st.files, blobs := st.files : WorkerResult } =
      ⟨.FAILED, some noChaptersMsg, []⟩ := by
    rw [finalView]
    simp
  rw [hfv]
  refine ⟨rfl, rfl, by decide, rfl, ?_⟩
  simpa using epub_detail_stateOf epubid owner
    ⟨.FAILED, some noChaptersMsg, []⟩ (by intro r hr; simp at hr)

/-- Witness for C5 (amended): a spine holding only a navigation document and
a whitespace-only section. -/
theorem worker_zero_sections_witness :
    (finalView (workerRun 2 ⟨.ok [.nav, .document ⟨" \n ", none, none, none⟩],
        fun _ => none, false, fun _ => false,
        fun n => "q" ++ toString n⟩)).status = .FAILED ∧
    (finalView (workerRun 2 ⟨.ok [.nav, .document ⟨" \n ", none, none, none⟩],
        fun _ => none, false, fun _ => false,
        fun n => "q" ++ toString n⟩)).errorMessage = some noChaptersMsg ∧
    noChaptersMsg ≠ "" ∧
    (workerRun 2 ⟨.ok [.nav, .document ⟨" \n ", none, none, none⟩],
        fun _ => none, false, fun _ => false,
        fun n => "q" ++ toString n⟩).inserted = [] ∧
    epub_detail (stateOf 2 "fay" (finalView (workerRun 2
        ⟨.ok [.nav, .document ⟨" \n ", none, none, none⟩],
          fun _ => none, false, fun _ => false,
          fun n => "q" ++ toString n⟩))) (some "fay") 2 =
      .ok ⟨.FAILED, some noChaptersMsg, 0⟩ :=
  worker_zero_sections 2 "fay" _ _ rfl (fun _ => rfl) (by decide)

/-- Claim C6: listChapters by the owner returns the epub_still_loading
conflict while LOADING, the epub_parse_failed conflict after FAILED, and
otherwise the chapter views ordered by chapter number ascending, a pure
function of the stored state, so repeated calls agree. -/
theorem list_chapters_gate (st : DBState) (row : EpubRow) (username : String)
    (epubId : Nat)
    (hfind : st.epubs.find? (fun r => r.epubid == epubId) = some row)
    (hown : row.owner = username) :
    (row.status = .LOADING →
      epub_chapters st (some username) epubId =
        .conflict "epub_still_loading") ∧
    (row.status = .FAILED →
      epub_chapters st (some username) epubId =
        .conflict "epub_parse_failed") ∧
    (row.status = .PARSED →
      epub_chapters st (some username) epubId =
        .ok ((List.insertionSort chapLE
          (st.chapters.filter (fun c => c.epubid == epubId))).map
            ChapterRow.toView) ∧
      List.Sorted chapLE (List.insertionSort chapLE
        (st.chapters.filter (fun c => c.epubid == epubId))) ∧
      (List.insertionSort chapLE
        (st.chapters.filter (fun c => c.epubid == epubId))).Perm
        (st.chapters.filter (fun c => c.epubid == epubId))) ∧
    epub_chapters st (some username) epubId =
      epub_chapters st (some username) epubId := by
  subst hown
  refine ⟨?_, ?_, ?_, rfl⟩
  · intro hst
    simp [epub_chapters, hfind, hst]
  · intro hst
    simp [epub_chapters, hfind, hst]
  · intro hst
    refine ⟨by simp [epub_chapters, hfind, hst, chaptersQuery], ?_, ?_⟩
    · exact List.sorted_insertionSort chapLE _
    · exact List.perm_insertionSort chapLE _

/-- Witness for C6 on a PARSED record whose stored rows are out of order. -/
theorem list_chapters_gate_witness :
    ((⟨5, "carol", "t", "a", "o.epub", "s.epub", .PARSED, none⟩ :
        EpubRow).status = .LOADING →
      epub_chapters ⟨[⟨5, "carol", "t", "a", "o.epub", "s.epub", .PARSED,
          none⟩], [⟨2, 5, 2, "Two", "f2.txt"⟩, ⟨1, 5, 1, "One", "f1.txt"⟩]⟩
        (some "carol") 5 = .conflict "epub_still_loading") ∧
    ((⟨5, "carol", "t", "a", "o.epub", "s.epub", .PARSED, none⟩ :
        EpubRow).status = .FAILED →
      epub_chapters ⟨[⟨5, "carol", "t", "a", "o.epub", "s.epub", .PARSED,
          none⟩], [⟨2, 5, 2, "Two", "f2.txt"⟩, ⟨1, 5, 1, "One", "f1.txt"⟩]⟩
        (some "carol") 5 = .conflict "epub_parse_failed") ∧
    ((⟨5, "carol", "t", "a", "o.epub", "s.epub", .PARSED, none⟩ :
        EpubRow).status = .PARSED →
      epub_chapters ⟨[⟨5, "carol", "t", "a", "o.epub", "s.epub", .PARSED,
          none⟩], [⟨2, 5, 2, "Two", "f2.txt"⟩, ⟨1, 5, 1, "One", "f1.txt"⟩]⟩
        (some "carol") 5 =
        .ok ((List.insertionSort chapLE
          (([⟨2, 5, 2, "Two", "f2.txt"⟩, ⟨1, 5, 1, "One", "f1.txt"⟩] :
            List ChapterRow).filter (fun c => c.epubid == 5))).map
              ChapterRow.toView) ∧
      List.Sorted chapLE (List.insertionSort chapLE
        (([⟨2, 5, 2, "Two", "f2.txt"⟩, ⟨1, 5, 1, "One", "f1.txt"⟩] :
          List ChapterRow).filter (fun c => c.epubid == 5))) ∧
      (List.insertionSort chapLE
        (([⟨2, 5, 2, "Two", "f2.txt"⟩, ⟨1, 5, 1, "One", "f1.txt"⟩] :
          List ChapterRow).filter (fun c => c.epubid == 5))).Perm
        (([⟨2, 5, 2, "Two", "f2.txt"⟩, ⟨1, 5, 1, "One", "f1.txt"⟩] :
          List ChapterRow).filter (fun c => c.epubid == 5))) ∧
    epub_chapters ⟨[⟨5, "carol", "t", "a", "o.epub", "s.epub", .PARSED,
        none⟩], [⟨2, 5, 2, "Two", "f2.txt"⟩, ⟨1, 5, 1, "One", "f1.txt"⟩]⟩
      (some "carol") 5 =
      epub_chapters ⟨[⟨5, "carol", "t", "a", "o.epub", "s.epub", .PARSED,
          none⟩], [⟨2, 5, 2, "Two", "f2.txt"⟩, ⟨1, 5, 1, "One", "f1.txt"⟩]⟩
        (some "carol") 5 :=
  list_chapters_gate _ _ "carol" 5 rfl rfl

/-- Claim C7: submit rejects a filename whose lowercased extension is not
.epub with the invalid_file_type error before any blob write or record
creation, and likewise rejects a missing payload or an empty filename before
any effect. -/
theorem upload_validation (username filename : String)
    (meta : Except String EpubMeta)
    (hne : filename ≠ "")
    (hext : pylower (splitext filename).2 ≠ ".epub") :
    epub_upload (some username) (some filename) meta =
      ⟨.typeError "invalid_file_type" "Only .epub files are accepted",
        false, false⟩ ∧
    epub_upload (some username) none meta = ⟨.badRequest, false, false⟩ ∧
    epub_upload (some username) (some "") meta =
      ⟨.badRequest, false, false⟩ := by
  refine ⟨?_, rfl, rfl⟩
  simp [epub_upload, hne, hext]

/-- Witness for C7 with a .txt filename. -/
theorem upload_validation_witness :
    epub_upload (some "dave") (some "notes.txt") (.error "x") =
      ⟨.typeError "invalid_file_type" "Only .epub files are accepted",
        false, false⟩ ∧
    epub_upload (some "dave") none (.error "x") =
      ⟨.badRequest, false, false⟩ ∧
    epub_upload (some "dave") (some "") (.error "x") =
      ⟨.badRequest, false, false⟩ :=
  upload_validation "dave" "notes.txt" (.error "x") (by decide) (by decide)

/-- Counterexample to claim C8 as stated: a section whose first heading is an
h1 with empty stripped text.  A heading is found, so by the claim its
(truncated) text would be the title, yet the code synthesizes Chapter 1. -/
theorem derive_title_counterexample :
    firstHeading ⟨"x", some "", none, none⟩ = some "" ∧
    deriveTitle ⟨"x", some "", none, none⟩ 1 = "Chapter 1" ∧
    deriveTitle ⟨"x", some "", none, none⟩ 1 ≠
      deriveTitleSpec ⟨"x", some "", none, none⟩ 1 := by
  refine ⟨rfl, rfl, ?_⟩
  decide

/-- Claim C8 (amended): the chapter title is the text of the first heading
found, trying h1 then h2 then h3 in that priority, truncated to 512
characters; when no heading is found, or the found heading's truncated text
is empty, the Worker synthesizes Chapter n from the 1-based running count of
non-empty sections. -/
theorem derive_title_amended (s : ParsedSection) (n : Nat) :
    deriveTitle s n =
      match firstHeading s with
      | some t =>
        if pytrunc t 512 = "" then "Chapter " ++ toString n
        else pytrunc t 512
      | none => "Chapter " ++ toString n := by
  rcases s with ⟨tx, h1, h2, h3⟩
  rcases h1 with _ | t1 <;> rcases h2 with _ | t2 <;> rcases h3 with _ | t3 <;>
    simp [deriveTitle, firstHeading]

/-- Claim C9: extractMetadata never fails its caller: when reading the
archive's descriptive metadata raises, it returns the fallback filename
without its extension bounded to 512 characters as the title, and the empty
author. -/
theorem metadata_degrades (msg fallbackName : String) :
    extract_epub_metadata (.error msg) fallbackName =
      (pytrunc (splitext fallbackName).1 512, "") ∧
    (pytrunc (splitext fallbackName).1 512).length ≤ 512 := by
  refine ⟨rfl, ?_⟩
  show ((splitext fallbackName).1.data.take 512).length ≤ 512
  simp

/-- Claim C10: on a successful metadata extraction both the title and the
author read from the archive are truncated to at most 512 characters. -/
theorem metadata_truncation (m : EpubMeta) (fallbackName t c : String)
    (ht : m.dcTitle = some t) (ht0 : t ≠ "")
    (hc : m.dcCreator = some c) (hc0 : c ≠ "") :
    extract_epub_metadata (.ok m) fallbackName =
      (pytrunc t 512, pytrunc c 512) ∧
    (pytrunc t 512).length ≤ 512 ∧ (pytrunc c 512).length ≤ 512 := by
  refine ⟨?_, ?_, ?_⟩
  · simp [extract_epub_metadata, ht, hc, ht0, hc0]
  · show (t.data.take 512).length ≤ 512
    simp
  · show (c.data.take 512).length ≤ 512
    simp

/-- Witness for C10 with concrete Dublin Core fields. -/
theorem metadata_truncation_witness :
    extract_epub_metadata (.ok ⟨some "My Title", some "An Author"⟩) "b.epub" =
      (pytrunc "My Title" 512, pytrunc "An Author" 512) ∧
    (pytrunc "My Title" 512).length ≤ 512 ∧
    (pytrunc "An Author" 512).length ≤ 512 :=
  metadata_truncation ⟨some "My Title", some "An Author"⟩ "b.epub"
    "My Title" "An Author" rfl (by decide) rfl (by decide)

end Kiwifruit
